import Mathlib

/-!
Verification of the instrument command/response adapters of the
Cryostat-v3.1 repository against its natural-language specification.

The Python drivers are shallowly embedded in Lean: each embedded function
mirrors one Python function from the sources under
`src/drivers/Oxford MercuryiPS-M/`, `src/drivers/Oxford ILM 210/` and
`src/instruments/oi_ilm_210/`.  Python exceptions are made explicit with
an `Except PyExc` result type, and the `try/except` blocks of the source
become `pyCatch` applications that handle exactly the exception classes
named in the corresponding `except` clause.  Python floats are modelled
as rationals; the builtin parsers `float(s)` and `int(s, 16)` are
modelled by executable parsers over the decimal / hexadecimal grammar
(including the optional sign and surrounding whitespace that Python
accepts); transport reads and writes appear as explicit parameters and
as an explicit trace of written commands.
-/

/-- Python exception classes that the embedded code can raise or catch. -/
inductive PyExc : Type
| valueError
| indexError
| attributeError
| typeError
deriving DecidableEq, Repr

/-- Embedding of a Python `try/except (E1, E2, ...)` block: a computation
whose failures are listed exceptions is replaced by a fallback value;
other exceptions propagate. -/
def pyCatch {α : Type} (comp : Except PyExc α) (handled : List PyExc)
    (fallback : α) : Except PyExc α :=
  match comp with
  | .ok a => .ok a
  | .error e => if e ∈ handled then .ok fallback else .error e

/-- Embedding of a bare Python `try/except Exception` block: every failure
is replaced by the fallback value. -/
def pyCatchAll {α : Type} (comp : Except PyExc α) (fallback : α) :
    Except PyExc α :=
  match comp with
  | .ok a => .ok a
  | .error _ => .ok fallback

/-- The whitespace characters stripped by Python's `str.strip()` and by
`float`/`int` around their argument. -/
def isPyWs (c : Char) : Bool :=
  c == ' ' || c == '\t' || c == '\n' || c == '\r' || c == '\x0b' || c == '\x0c'

/-- Strip `isPyWs` characters from both ends of a character list. -/
def pyStripWsList (l : List Char) : List Char :=
  ((l.dropWhile isPyWs).reverse.dropWhile isPyWs).reverse

/-- Python `s.strip()` (whitespace on both ends). -/
def pyStripWs (s : String) : String :=
  String.mk (pyStripWsList s.toList)

/-- Strip a given character from both ends of a character list, as
Python's `s.strip(c)` does for a one-character argument. -/
def pyStripCharList (c : Char) (l : List Char) : List Char :=
  ((l.dropWhile (fun x => x == c)).reverse.dropWhile (fun x => x == c)).reverse

/-- Python `s.strip(c)` for a single character `c`. -/
def pyStripChar (s : String) (c : Char) : String :=
  String.mk (pyStripCharList c s.toList)

/-- Whether `pat` occurs as a contiguous sublist of `l`. -/
def listContainsSub (pat : List Char) : List Char → Bool
  | [] => pat.isEmpty
  | c :: t => pat.isPrefixOf (c :: t) || listContainsSub pat t

/-- Python `pat in s` on strings: substring containment. -/
def containsSubstr (s pat : String) : Bool :=
  listContainsSub pat.toList s.toList

/-- Python `s.startswith(pre)`. -/
def pyStartsWith (s pre : String) : Bool :=
  pre.toList.isPrefixOf s.toList

/-- Replace every (leftmost, non-overlapping) occurrence of `pat` by
`rep`, driven by a fuel counter so that the recursion is structural.
With fuel at least the length of the list this computes Python's
`s.replace(pat, rep)` for a non-empty `pat` (the sources only ever
replace non-empty patterns). -/
def replaceFuel (pat rep : List Char) : Nat → List Char → List Char
  | 0, l => l
  | Nat.succ f, l =>
    match l with
    | [] => []
    | c :: t =>
      if !pat.isEmpty && pat.isPrefixOf (c :: t) then
        rep ++ replaceFuel pat rep f ((c :: t).drop pat.length)
      else
        c :: replaceFuel pat rep f t

/-- Python `s.replace(pat, rep)` (all occurrences), for non-empty `pat`. -/
def pyReplace (s pat rep : String) : String :=
  String.mk (replaceFuel pat.toList rep.toList s.toList.length s.toList)

/-- Number of characters of a string, Python's `len(s)`. -/
def pyLen (s : String) : Nat :=
  s.toList.length

/-- Python slicing `s[a:b]` (character-based, as Python strings are). -/
def pySlice (s : String) (a b : Nat) : String :=
  String.mk ((s.toList.drop a).take (b - a))

/-- Character of `s` at index `i`, Python `s[i]`, defaulting to a space
when out of range (all uses are guarded by a length check). -/
def pyCharAt (s : String) (i : Nat) : Char :=
  s.toList.getD i ' '

/-- Split a character list at every colon, Python `s.split(":")`. -/
def splitOnColonList : List Char → List (List Char)
  | [] => [[]]
  | ':' :: t => [] :: splitOnColonList t
  | c :: t =>
    match splitOnColonList t with
    | [] => [[c]]
    | h :: r => (c :: h) :: r

/-- The last field of Python `s.split(":")`, i.e. `s.split(":")[-1]`
(the split list is never empty, so the default is never used). -/
def lastColonToken (s : String) : String :=
  String.mk ((splitOnColonList s.toList).getLastD [])

/-- Value of a hexadecimal digit character, `none` for any other. -/
def hexDigitVal (c : Char) : Option Nat :=
  if c.isDigit then some (c.toNat - 48)
  else if 'a' ≤ c && c ≤ 'f' then some (c.toNat - 87)
  else if 'A' ≤ c && c ≤ 'F' then some (c.toNat - 55)
  else none

/-- Boolean test for a hexadecimal digit. -/
def isHexDigitB (c : Char) : Bool :=
  (hexDigitVal c).isSome

/-- Value of a list of decimal digit characters. -/
def digitsVal10 (l : List Char) : Nat :=
  l.foldl (fun a c => 10 * a + (c.toNat - 48)) 0

/-- Value of a list of hexadecimal digit characters. -/
def digitsVal16 (l : List Char) : Nat :=
  l.foldl (fun a c => 16 * a + (hexDigitVal c).getD 0) 0

/-- Ten to an integer power, as a rational. -/
def qpow10 (e : Int) : ℚ :=
  if 0 ≤ e then (10 : ℚ) ^ e.toNat else 1 / (10 : ℚ) ^ (-e).toNat

/-- Symbolic form of a parsed Python float literal: sign, the mantissa
digits read as a natural number, the number of fractional digits, and
the exponent.  The denoted rational is `FloatRep.val`.  Kept symbolic so
that parsing results can be settled by `decide` and the rational value
separately by `norm_num`. -/
structure FloatRep where
  neg : Bool
  mant : Nat
  fracLen : Nat
  exp : Int
deriving DecidableEq, Repr

/-- The rational value denoted by a `FloatRep`. -/
def FloatRep.val (r : FloatRep) : ℚ :=
  (if r.neg then -1 else 1) * ((r.mant : ℚ) / (10 : ℚ) ^ r.fracLen) * qpow10 r.exp

/-- Parse the exponent tail of a float literal (what follows `e`/`E`):
an optional sign and a non-empty run of digits ending the string. -/
def parseExpTail (l : List Char) : Option Int :=
  let sr : Int × List Char :=
    match l with
    | '+' :: t => (1, t)
    | '-' :: t => (-1, t)
    | _ => (1, l)
  let ds := sr.2.takeWhile Char.isDigit
  let rest := sr.2.dropWhile Char.isDigit
  if !ds.isEmpty && rest.isEmpty then some (sr.1 * (digitsVal10 ds : Int))
  else none

/-- Parse an unsigned Python float literal body: `digits`, `digits.digits`,
`.digits`, `digits.`, each with an optional `e`/`E` exponent. -/
def parseMantissaExp (neg : Bool) (l : List Char) : Option FloatRep :=
  let ip := l.takeWhile Char.isDigit
  let r1 := l.dropWhile Char.isDigit
  match r1 with
  | [] =>
    if ip.isEmpty then none
    else some { neg := neg, mant := digitsVal10 ip, fracLen := 0, exp := 0 }
  | '.' :: r2 =>
    let fp := r2.takeWhile Char.isDigit
    let r3 := r2.dropWhile Char.isDigit
    if ip.isEmpty && fp.isEmpty then none
    else
      let mant := digitsVal10 (ip ++ fp)
      match r3 with
      | [] => some { neg := neg, mant := mant, fracLen := fp.length, exp := 0 }
      | 'e' :: t =>
        Option.map (fun e => { neg := neg, mant := mant, fracLen := fp.length, exp := e })
          (parseExpTail t)
      | 'E' :: t =>
        Option.map (fun e => { neg := neg, mant := mant, fracLen := fp.length, exp := e })
          (parseExpTail t)
      | _ => none
  | 'e' :: t =>
    if ip.isEmpty then none
    else
      Option.map (fun e => { neg := neg, mant := digitsVal10 ip, fracLen := 0, exp := e })
        (parseExpTail t)
  | 'E' :: t =>
    if ip.isEmpty then none
    else
      Option.map (fun e => { neg := neg, mant := digitsVal10 ip, fracLen := 0, exp := e })
        (parseExpTail t)
  | _ => none

/-- Model of Python's builtin `float(s)`, in symbolic form: optional
surrounding whitespace, optional sign, then a decimal literal with an
optional exponent.  `none` models `float` raising `ValueError`.  (The
special spellings `inf`/`nan`/underscores, which never occur in the
device responses at issue, are mapped to `none` as well.) -/
def parsePyFloatRep (s : String) : Option FloatRep :=
  let l := pyStripWsList s.toList
  match l with
  | '+' :: t => parseMantissaExp false t
  | '-' :: t => parseMantissaExp true t
  | _ => parseMantissaExp false l

/-- Model of Python's builtin `float(s)` as a rational value. -/
def parsePyFloat (s : String) : Option ℚ :=
  Option.map FloatRep.val (parsePyFloatRep s)

/-- Model of Python's builtin `int(s, 16)`: optional surrounding
whitespace, optional sign, optional `0x`/`0X` prefix, then a non-empty
run of hexadecimal digits (so e.g. `int("+2", 16) == 2` and
`int(" 2", 16) == 2` parse, while `int("", 16)` and `int("G1", 16)`
raise `ValueError`, modelled as `none`). -/
def parsePyHex (s : String) : Option Int :=
  let l := pyStripWsList s.toList
  let sgn : Int := if l.headD ' ' == '-' then -1 else 1
  let r : List Char := if l.headD ' ' == '+' || l.headD ' ' == '-' then l.tail else l
  let r2 : List Char :=
    if r.headD ' ' == '0' && (r.tail.headD ' ' == 'x' || r.tail.headD ' ' == 'X') then
      r.tail.tail
    else r
  let ds := r2.takeWhile isHexDigitB
  let rest := r2.dropWhile isHexDigitB
  if !ds.isEmpty && rest.isEmpty then some (sgn * (digitsVal16 ds : Int))
  else none

/-- Python `abs` on the rational model of floats. -/
def pyAbs (x : ℚ) : ℚ :=
  if x < 0 then -x else x

/-- The `MagnetStatus` enumeration of `MercuryiPS_driver.py` (lines 29-35). -/
inductive MagnetStatus : Type
| HOLD
| RAMPING_TO_SET
| RAMPING_TO_ZERO
| CLAMPED
| UNKNOWN
deriving DecidableEq, Repr

/-- The Python enum constructor `MagnetStatus(status)`: maps the device
status code to the enum member, `none` modelling the `ValueError` the
constructor raises on an unknown code. -/
def MagnetStatus.ofString (s : String) : Option MagnetStatus :=
  if s = "HOLD" then some .HOLD
  else if s = "RTOS" then some .RAMPING_TO_SET
  else if s = "RTOZ" then some .RAMPING_TO_ZERO
  else if s = "CLMP" then some .CLAMPED
  else if s = "UNKNOWN" then some .UNKNOWN
  else none

/-- Commands the Mercury iPS-M driver can send, as structured data (the
numeric payloads are kept as rationals rather than re-encoded text). -/
inductive MercCmd : Type
| cset (value : ℚ)
| rcst (rate : ℚ)
| swhnOn
| swhnOff
deriving DecidableEq

namespace Mercury

/-- Embeds `MercuryiPSDriver.connect` (`MercuryiPS_driver.py` lines 77-96).
`conn0` is the `connected` flag before the call and `resp` the result of
`self._query("*IDN?")` (`_query` catches every transport exception
internally and returns `None`, so a transport that cannot be opened or a
probe timeout both surface here as `none`).  Returns the boolean result
of `connect` together with the `connected` flag after the call. -/
def connect (conn0 : Bool) (resp : Option String) : Bool × Bool :=
  match resp with
  | none => (false, conn0)
  | some r =>
    if r ≠ "" && containsSubstr r "OXFORD INSTRUMENTS:MERCURY" then (true, true)
    else (false, conn0)

/-- `connect` with its `try/except` made explicit: the body catches every
exception and returns `False`, so the call never raises. -/
def connectExc (conn0 : Bool) (resp : Option String) : Except PyExc (Bool × Bool) :=
  Except.ok (connect conn0 resp)

/-- The cleaning pipeline of `_extract_value` (lines 173-196):
`response.replace(expected_response, '').strip('\n').replace(unit, '')`
where `expected_response = 'STAT:' + noun + ':'`. -/
def extractCleaned (response noun unit : String) : String :=
  pyReplace (pyStripChar (pyReplace response ("STAT:" ++ noun ++ ":") "") '\n') unit ""

/-- Embeds `MercuryiPSDriver._extract_value` (lines 173-196): checks the
`STAT:<noun>:` prefix, strips prefix and unit, parses a float; the
surrounding `try/except (ValueError, AttributeError)` returns `None` on
parse failure. -/
def extract_value (response noun unit : String) : Except PyExc (Option ℚ) :=
  pyCatch
    (if pyStartsWith response ("STAT:" ++ noun ++ ":") then
      match parsePyFloat (extractCleaned response noun unit) with
      | some v => Except.ok (some v)
      | none => Except.error PyExc.valueError
    else Except.ok none)
    [PyExc.valueError, PyExc.attributeError] none

/-- Embeds `MercuryiPSDriver._set` (lines 151-171): when not connected it
returns `False` without touching the transport; otherwise `_query` writes
the command and `_set` reports success exactly when the response is a
non-empty string.  The second component is the list of commands written
to the transport. -/
def mSet (connected : Bool) (resp : Option String) (c : MercCmd) :
    Bool × List MercCmd :=
  if connected then
    match resp with
    | some r => (r ≠ "", [c])
    | none => (false, [c])
  else (false, [])

/-- Embeds `MercuryiPSDriver.set_current` (lines 210-227): values with
`abs(value) > 360.0` are rejected before any command is built. -/
def set_current (connected : Bool) (resp : Option String) (value : ℚ) :
    Bool × List MercCmd :=
  if pyAbs value > 360 then (false, [])
  else mSet connected resp (MercCmd.cset value)

/-- Embeds `MercuryiPSDriver.set_current_ramp_rate` (lines 229-245):
rates outside `[0.0, 1200.0]` are rejected before any command is built. -/
def set_current_ramp_rate (connected : Bool) (resp : Option String) (rate : ℚ) :
    Bool × List MercCmd :=
  if rate < 0 ∨ rate > 1200 then (false, [])
  else mSet connected resp (MercCmd.rcst rate)

/-- Embeds `MercuryiPSDriver.read_magnet_status` (lines 339-354), with
`resp` the result of `self._query("READ:DEV:GRPZ:PSU:ACTN?")`.  The
`try/except (IndexError, ValueError)` around
`MagnetStatus(response.split(":")[-1].strip())` maps an unknown code to
`MagnetStatus.UNKNOWN`. -/
def read_magnet_status (resp : Option String) : Except PyExc MagnetStatus :=
  match resp with
  | none => Except.ok MagnetStatus.UNKNOWN
  | some r =>
    if r = "" then Except.ok MagnetStatus.UNKNOWN
    else if containsSubstr r "STAT:" then
      pyCatch
        (match MagnetStatus.ofString (pyStripWs (lastColonToken r)) with
         | some st => Except.ok st
         | none => Except.error PyExc.valueError)
        [PyExc.indexError, PyExc.valueError] MagnetStatus.UNKNOWN
    else Except.ok MagnetStatus.UNKNOWN

/-- The response `MockMercuryiPSDriver._query` builds for the
`READ:DEV:GRPZ:PSU:SIG:CURR?` query (lines 433-454):
`f"STAT:DEV:GRPZ:PSU:SIG:CURR:{self._mock_current}:A"`, with
`reprCurrent` standing for Python's textual rendering of the stored
float (`repr(0.0) == "0.0"`). -/
def mockCurrResponse (reprCurrent : String) : String :=
  "STAT:DEV:GRPZ:PSU:SIG:CURR:" ++ reprCurrent ++ ":A"

/-- Embeds `MercuryiPSDriver.read_current` (lines 198-208) applied to a
given query response: non-empty responses are decoded with
`_extract_value(response, "DEV:GRPZ:PSU:SIG:CURR", "A")`. -/
def read_current (resp : Option String) : Except PyExc (Option ℚ) :=
  match resp with
  | none => Except.ok none
  | some r =>
    if r = "" then Except.ok none
    else extract_value r "DEV:GRPZ:PSU:SIG:CURR" "A"

end Mercury

namespace MercuryGUI

/-- Embeds `MercuryiPSGUI._check_current_safety`
(`MercuryiPS_gui.py` lines 448-484): `current` and `persistent` are the
two driver readings; the check fails when either is `None` or when
`abs(current - persistent_current) > 0.1`. -/
def check_current_safety (current persistent : Option ℚ) : Bool :=
  match current, persistent with
  | some c, some p => if pyAbs (c - p) > 1 / 10 then false else true
  | _, _ => false

/-- Embeds `MercuryiPSGUI._heater_on` (lines 486-502): the commands the
handler sends to the driver.  When not connected, or when the safety
check fails, nothing is sent; otherwise `driver.switch_heater_on()`
issues the heater command. -/
def heater_on (connected : Bool) (current persistent : Option ℚ) : List MercCmd :=
  if connected then
    if check_current_safety current persistent then [MercCmd.swhnOn] else []
  else []

end MercuryGUI

/-- Trace of one `_execute` round trip: the strings written to the
transport, the settle delay slept before reading (in seconds), and the
value returned to the caller. -/
structure ExecTrace where
  written : List String
  delaySeconds : ℚ
  result : Option String

namespace ILM200

/-- Embeds `OxfordInstruments_ILM200._execute`
(`OxfordInstruments_ILM200.py` lines 94-118): writes
`'@%s%s' % (self._number, message)`, sleeps `70e-3` seconds, reads the
buffer, and returns `None` when the response contains `'?'`
(`result.find('?') >= 0`) or when the transport raised (`writeOk`
false models a raising `write`; `_read` itself returns `""` on a read
error). -/
def execute (number : Nat) (message : String) (writeOk : Bool)
    (readResult : String) : ExecTrace :=
  { written := ["@" ++ Nat.repr number ++ message]
  , delaySeconds := 7 / 100
  , result :=
      if writeOk then
        if containsSubstr readResult "?" then none else some readResult
      else none }

/-- Embeds `OxfordInstruments_ILM200._do_get_level` (lines 232-275),
applied to the result of `self._execute('R1')`: parses
`float(result.replace("R", "")) / 10`, with `try/except ValueError`
returning `None`. -/
def do_get_level (result : Option String) : Except PyExc (Option ℚ) :=
  match result with
  | none => Except.ok none
  | some r =>
    if r = "" then Except.ok none
    else
      pyCatch
        (match parsePyFloat (pyReplace r "R" "") with
         | some v => Except.ok (some (v / 10))
         | none => Except.error PyExc.valueError)
        [PyExc.valueError] none

/-- The channel-usage table of `_do_get_status` (lines 277-309), Python
`usage.get(n, "Unknown")`. -/
def usageLabel (n : Nat) : String :=
  if n = 0 then "Channel not in use"
  else if n = 1 then "Channel used for Nitrogen level"
  else if n = 2 then "Channel used for Helium Level (Normal pulsed operation)"
  else if n = 3 then "Channel used for Helium Level (Continuous measurement)"
  else if n = 9 then "Error on channel (Usually means probe unplugged)"
  else "Unknown"

/-- Embeds `OxfordInstruments_ILM200._do_get_status` (lines 277-309),
applied to the result of `self._execute('X')`: guards
`result and len(result) > 1`, then looks `int(result[1])` up in the
usage table; `try/except (ValueError, IndexError)` yields `"Unknown"`. -/
def do_get_status (result : Option String) : Except PyExc String :=
  match result with
  | none => Except.ok "Unknown"
  | some r =>
    if r = "" then Except.ok "Unknown"
    else if 1 < pyLen r then
      pyCatch
        (if (pyCharAt r 1).isDigit then
          Except.ok (usageLabel ((pyCharAt r 1).toNat - 48))
         else Except.error PyExc.valueError)
        [PyExc.valueError, PyExc.indexError] "Unknown"
    else Except.ok "Unknown"

/-- Embeds `OxfordInstruments_ILM200._do_get_rate` (lines 277-309 of the
spec's numbering, function at lines 311 ff. of the file), applied to the
result of `self._execute('X')`: guards `result and len(result) >= 10`,
decodes `int(result[5:7], 16)` and tests bits `0x02` (FAST) and `0x04`
(SLOW); `try/except (ValueError, IndexError)` yields `"Unknown"`. -/
def do_get_rate (result : Option String) : Except PyExc String :=
  match result with
  | none => Except.ok "Unknown"
  | some r =>
    if r = "" then Except.ok "Unknown"
    else if 10 ≤ pyLen r then
      pyCatch
        (match parsePyHex (pySlice r 5 7) with
         | some v =>
           Except.ok
             (if Int.land v 2 ≠ 0 then "FAST"
              else if Int.land v 4 ≠ 0 then "SLOW"
              else "UNKNOWN")
         | none => Except.error PyExc.valueError)
        [PyExc.valueError, PyExc.indexError] "Unknown"
    else Except.ok "Unknown"

/-- Modelled from the spec: `qcodes.VisaInstrument.close`, the parent
class transport release called by `OxfordInstruments_ILM200.close` as
`super().close()`.  The parent class is not part of this repository's
sources; per the spec's teardown contract ("failures during teardown are
logged, never propagated — callers must be able to close unconditionally
during shutdown") it is modelled as releasing the transport without
raising. -/
def superClose : Except PyExc Unit :=
  Except.ok ()

/-- Embeds `OxfordInstruments_ILM200.close` (lines 207-216): the attempt
to restore the device to local mode (`self.local()`, whose outcome is the
`restore` parameter) is wrapped in `try/except Exception`, after which
`super().close()` runs. -/
def close (restore : Except PyExc Unit) (superC : Except PyExc Unit) :
    Except PyExc Unit :=
  match pyCatchAll restore () with
  | Except.ok _ => superC
  | Except.error e => Except.error e

end ILM200

namespace OIILM

/-- Embeds `OI_ILM_210._execute` (`oi_ilm_210.py` lines 30-40): writes
`f"@{self._number}{message}"`, sleeps `0.07` seconds, and returns
`self.read()` unchanged; only a raising transport (modelled by `writeOk`
false) yields `None`.  Note: unlike the `OxfordInstruments_ILM200`
adapter, this `_execute` performs no `'?'` error-marker check. -/
def execute (number : Nat) (message : String) (writeOk : Bool)
    (readResult : String) : ExecTrace :=
  { written := ["@" ++ Nat.repr number ++ message]
  , delaySeconds := 7 / 100
  , result := if writeOk then some readResult else none }

/-- Embeds `OI_ILM_210.get_rate` (`oi_ilm_210.py` lines 105-128), applied
to the result of `self._execute('X')`; the decoding logic is identical to
`OxfordInstruments_ILM200._do_get_rate`. -/
def get_rate (result : Option String) : Except PyExc String :=
  match result with
  | none => Except.ok "Unknown"
  | some r =>
    if r = "" then Except.ok "Unknown"
    else if 10 ≤ pyLen r then
      pyCatch
        (match parsePyHex (pySlice r 5 7) with
         | some v =>
           Except.ok
             (if Int.land v 2 ≠ 0 then "FAST"
              else if Int.land v 4 ≠ 0 then "SLOW"
              else "UNKNOWN")
         | none => Except.error PyExc.valueError)
        [PyExc.valueError, PyExc.indexError] "Unknown"
    else Except.ok "Unknown"

end OIILM

/-- C1: the switch-heater safety precondition check permits a heater
operation exactly when both the lead current and the persistent current
can be read and the absolute difference between them is at most 0.1 A;
with current 1.00 A and persistent current 0.85 A (difference 0.15 A)
the check returns false and `_heater_on` sends nothing, while with
persistent current 0.95 A (difference 0.05 A) it returns true and the
heater command is sent. -/
theorem c1_heater_safety_check :
    (∀ c p : Option ℚ, MercuryGUI.check_current_safety c p = true ↔
      ∃ cv pv, c = some cv ∧ p = some pv ∧ pyAbs (cv - pv) ≤ 1 / 10) ∧
    MercuryGUI.check_current_safety (some 1) (some (85 / 100)) = false ∧
    MercuryGUI.heater_on true (some 1) (some (85 / 100)) = [] ∧
    MercuryGUI.check_current_safety (some 1) (some (95 / 100)) = true ∧
    MercuryGUI.heater_on true (some 1) (some (95 / 100)) = [MercCmd.swhnOn] := by
  refine ⟨?_, ?_, ?_, ?_, ?_⟩
  · intro c p
    cases c with
    | none => simp [MercuryGUI.check_current_safety]
    | some cv =>
      cases p with
      | none => simp [MercuryGUI.check_current_safety]
      | some pv =>
        by_cases h : pyAbs (cv - pv) > 1 / 10
        · simp [MercuryGUI.check_current_safety, h, not_le.mpr h]
        · simp [MercuryGUI.check_current_safety, h, not_lt.mp h]
  · norm_num [MercuryGUI.check_current_safety, pyAbs]
  · norm_num [MercuryGUI.heater_on, MercuryGUI.check_current_safety, pyAbs]
  · norm_num [MercuryGUI.check_current_safety, pyAbs]
  · norm_num [MercuryGUI.heater_on, MercuryGUI.check_current_safety, pyAbs]

/-- C2 counterexample: the `oi_ilm_210.py` adapter's `_execute` does not
inspect the response for `'?'` at all: on the reply `"?R1"`, which does
contain `'?'`, it returns the reply itself rather than `None`, so the
claim that both ILM 210 adapter implementations return `None` on a `'?'`
reply is false. -/
theorem c2_oiilm_returns_reply_with_question_mark :
    containsSubstr "?R1" "?" = true ∧
    (OIILM.execute 1 "R1" true "?R1").result = some "?R1" :=
  ⟨by decide, rfl⟩

/-- C2 (amended): only the `OxfordInstruments_ILM200` adapter's
`_execute` returns `None` exactly when the reply contains `'?'`; the
`oi_ilm_210` adapter's `_execute` returns the reply unchanged whether or
not it contains `'?'` (returning `None` only when the transport
raises). -/
theorem c2_question_mark_handling (n : Nat) (m s : String) :
    ((ILM200.execute n m true s).result = none ↔ containsSubstr s "?" = true) ∧
    (OIILM.execute n m true s).result = some s := by
  constructor
  · by_cases h : containsSubstr s "?" = true
    · simp [ILM200.execute, h]
    · simp [ILM200.execute, h]
  · rfl

/-- C6 counterexample: when the identification probe yields no response
(the transport could not be opened or timed out, both of which `_query`
turns into `None`), `connect` does not raise `ConnectionError`: it
returns normally with `False`, leaving the adapter not connected. -/
theorem c6_connect_no_response_returns_false :
    Mercury.connectExc false none = Except.ok (false, false) := rfl

/-- C6 (amended): `connect` never raises; it reports failure by
returning `False` when the transport cannot be opened, the probe times
out, or the `*IDN?` response does not identify the device, and it
reports success (setting the connected flag) exactly when the response
is a non-empty string containing `"OXFORD INSTRUMENTS:MERCURY"`;
starting from the not-connected state, a failed `connect` leaves the
adapter not connected. -/
theorem c6_connect_success_criterion (conn0 : Bool) (resp : Option String) :
    ((Mercury.connect conn0 resp).1 = true ↔
      ∃ r, resp = some r ∧ r ≠ "" ∧
        containsSubstr r "OXFORD INSTRUMENTS:MERCURY" = true) ∧
    Mercury.connectExc conn0 resp = Except.ok (Mercury.connect conn0 resp) ∧
    (Mercury.connect false resp).2 = (Mercury.connect false resp).1 ∧
    Mercury.connect false (some "STAT:OXFORD INSTRUMENTS:MERCURY iPS:12345:1.0")
      = (true, true) := by
  refine ⟨?_, rfl, ?_, by decide⟩
  · cases resp with
    | none => simp [Mercury.connect]
    | some r =>
      simp only [Mercury.connect]
      by_cases hc : (decide (r ≠ "") && containsSubstr r "OXFORD INSTRUMENTS:MERCURY") = true
      · rw [if_pos hc]
        rw [Bool.and_eq_true, decide_eq_true_iff] at hc
        exact ⟨fun _ => ⟨r, rfl, hc.1, hc.2⟩, fun _ => rfl⟩
      · rw [if_neg hc]
        rw [Bool.and_eq_true, decide_eq_true_iff] at hc
        constructor
        · intro h1
          simp at h1
        · rintro ⟨r2, hr2, hne, hct⟩
          rw [Option.some.injEq] at hr2
          subst hr2
          exact absurd ⟨hne, hct⟩ hc
  · cases resp with
    | none => rfl
    | some r =>
      simp only [Mercury.connect]
      split
      · rfl
      · rfl

/-- C7: `close` is best-effort and idempotent: whatever happens while
restoring the device to local mode, the restore failure is swallowed
(the outcome of `close` is exactly the outcome of the transport
release), and two successive `close` calls both return normally. -/
theorem c7_close_best_effort_idempotent
    (restore r1 r2 superC : Except PyExc Unit) :
    ILM200.close restore superC = superC ∧
    ILM200.close r1 ILM200.superClose = Except.ok () ∧
    ILM200.close r2 ILM200.superClose = Except.ok () := by
  refine ⟨?_, ?_, ?_⟩
  · cases restore with
    | ok a => rfl
    | error e => rfl
  · cases r1 with
    | ok a => rfl
    | error e => rfl
  · cases r2 with
    | ok a => rfl
    | error e => rfl

/-- C8: both `_execute` implementations write exactly the ISOBUS token
`'@'` followed by the instrument number followed by the command
mnemonic (for instrument 1 and command `"R1"` the string `"@1R1"`), and
sleep a settle interval of 70 ms (`70e-3` s resp. `0.07` s) before
reading the buffered bytes. -/
theorem c8_isobus_framing_and_settle (n : Nat) (m s : String) (w : Bool) :
    (ILM200.execute n m w s).written = ["@" ++ Nat.repr n ++ m] ∧
    (ILM200.execute n m w s).delaySeconds * 1000 = 70 ∧
    (OIILM.execute n m w s).written = ["@" ++ Nat.repr n ++ m] ∧
    (OIILM.execute n m w s).delaySeconds * 1000 = 70 ∧
    (ILM200.execute 1 "R1" w s).written = ["@1R1"] := by
  refine ⟨rfl, ?_, rfl, ?_, ?_⟩
  · show (7 / 100 : ℚ) * 1000 = 70
    norm_num
  · show (7 / 100 : ℚ) * 1000 = 70
    norm_num
  · show ["@" ++ Nat.repr 1 ++ "R1"] = ["@1R1"]
    decide

/-- C9: the device limits are enforced before any command is sent: for
`abs(value) > 360.0` A, `set_current` returns `False` having written
nothing, and for a ramp rate outside `[0.0, 1200.0]` A/min,
`set_current_ramp_rate` returns `False` having written nothing. -/
theorem c9_limits_enforced (connected : Bool) (resp : Option String)
    (v r : ℚ) (hv : pyAbs v > 360) (hr : r < 0 ∨ r > 1200) :
    Mercury.set_current connected resp v = (false, []) ∧
    Mercury.set_current_ramp_rate connected resp r = (false, []) := by
  constructor
  · simp [Mercury.set_current, hv]
  · simp [Mercury.set_current_ramp_rate, hr]

/-- C9 witness: at current 400 A and ramp rate 1300 A/min the guards
fire. -/
theorem c9_limits_enforced_witness :
    Mercury.set_current true (some "STAT:OK") 400 = (false, []) ∧
    Mercury.set_current_ramp_rate true (some "STAT:OK") 1300 = (false, []) :=
  c9_limits_enforced true (some "STAT:OK") 400 1300
    (by norm_num [pyAbs]) (Or.inr (by norm_num))

lemma pyCatch_covered {α : Type} (comp : Except PyExc α) (handled : List PyExc)
    (fb : α) (h : ∀ e, comp = Except.error e → e ∈ handled) :
    ∃ v, pyCatch comp handled fb = Except.ok v := by
  cases comp with
  | ok a => exact ⟨a, rfl⟩
  | error e =>
    refine ⟨fb, ?_⟩
    simp [pyCatch, h e rfl]

lemma do_get_level_ok (res : Option String) :
    ∃ v, ILM200.do_get_level res = Except.ok v := by
  cases res with
  | none => exact ⟨none, rfl⟩
  | some r =>
    simp only [ILM200.do_get_level]
    by_cases he : r = ""
    · rw [if_pos he]
      exact ⟨none, rfl⟩
    · rw [if_neg he]
      apply pyCatch_covered
      intro e hE
      cases hp : parsePyFloat (pyReplace r "R" "") with
      | none =>
        rw [hp] at hE
        cases hE
        simp
      | some v =>
        rw [hp] at hE
        cases hE

lemma do_get_status_ok (res : Option String) :
    ∃ v, ILM200.do_get_status res = Except.ok v := by
  cases res with
  | none => exact ⟨"Unknown", rfl⟩
  | some r =>
    simp only [ILM200.do_get_status]
    by_cases he : r = ""
    · rw [if_pos he]
      exact ⟨"Unknown", rfl⟩
    · rw [if_neg he]
      by_cases hl : 1 < pyLen r
      · rw [if_pos hl]
        apply pyCatch_covered
        intro e hE
        by_cases hd : (pyCharAt r 1).isDigit = true
        · rw [if_pos hd] at hE
          cases hE
        · rw [if_neg hd] at hE
          cases hE
          simp
      · rw [if_neg hl]
        exact ⟨"Unknown", rfl⟩

lemma do_get_rate_ok (res : Option String) :
    ∃ v, ILM200.do_get_rate res = Except.ok v := by
  cases res with
  | none => exact ⟨"Unknown", rfl⟩
  | some r =>
    simp only [ILM200.do_get_rate]
    by_cases he : r = ""
    · rw [if_pos he]
      exact ⟨"Unknown", rfl⟩
    · rw [if_neg he]
      by_cases hl : 10 ≤ pyLen r
      · rw [if_pos hl]
        apply pyCatch_covered
        intro e hE
        cases hp : parsePyHex (pySlice r 5 7) with
        | none =>
          rw [hp] at hE
          cases hE
          simp
        | some v =>
          rw [hp] at hE
          cases hE
      · rw [if_neg hl]
        exact ⟨"Unknown", rfl⟩

lemma extract_value_ok (response noun u : String) :
    ∃ v, Mercury.extract_value response noun u = Except.ok v := by
  simp only [Mercury.extract_value]
  apply pyCatch_covered
  intro e hE
  by_cases hs : pyStartsWith response ("STAT:" ++ noun ++ ":") = true
  · rw [if_pos hs] at hE
    cases hp : parsePyFloat (Mercury.extractCleaned response noun u) with
    | none =>
      rw [hp] at hE
      cases hE
      simp
    | some v =>
      rw [hp] at hE
      cases hE
  · rw [if_neg hs] at hE
    cases hE

/-- C3: decoding never raises on malformed input: for every string the
transport can return (including empty, too short, or non-numeric /
non-hex content), level parsing, status parsing, rate parsing and
numeric value extraction all terminate normally with a typed value or
the sentinel (`none` / `"Unknown"`); no exception escapes the decoder. -/
theorem c3_decoding_never_raises (lvl st rt : Option String)
    (resp noun u : String) :
    (∃ v, ILM200.do_get_level lvl = Except.ok v) ∧
    (∃ v, ILM200.do_get_status st = Except.ok v) ∧
    (∃ v, ILM200.do_get_rate rt = Except.ok v) ∧
    (∃ v, Mercury.extract_value resp noun u = Except.ok v) :=
  ⟨do_get_level_ok lvl, do_get_status_ok st, do_get_rate_ok rt,
    extract_value_ok resp noun u⟩

/-- C10: `read_magnet_status` is total over all possible responses and
always lands in the `MagnetStatus` enumeration: a `None` response, a
response without the `"STAT:"` marker, or a final colon-separated token
(after stripping, as the code does) that is not one of the four defined
status codes all yield `MagnetStatus.UNKNOWN` without raising, and a
recognised token yields the corresponding member. -/
theorem c10_read_magnet_status_total (resp : Option String) (r : String) :
    (∃ st, Mercury.read_magnet_status resp = Except.ok st) ∧
    Mercury.read_magnet_status none = Except.ok MagnetStatus.UNKNOWN ∧
    (containsSubstr r "STAT:" = false →
      Mercury.read_magnet_status (some r) = Except.ok MagnetStatus.UNKNOWN) ∧
    (pyStripWs (lastColonToken r) ∉ (["HOLD", "RTOS", "RTOZ", "CLMP"] : List String) →
      Mercury.read_magnet_status (some r) = Except.ok MagnetStatus.UNKNOWN) ∧
    (∀ st, r ≠ "" → containsSubstr r "STAT:" = true →
      MagnetStatus.ofString (pyStripWs (lastColonToken r)) = some st →
      Mercury.read_magnet_status (some r) = Except.ok st) := by
  refine ⟨?_, rfl, ?_, ?_, ?_⟩
  · cases resp with
    | none => exact ⟨MagnetStatus.UNKNOWN, rfl⟩
    | some r2 =>
      simp only [Mercury.read_magnet_status]
      by_cases he : r2 = ""
      · rw [if_pos he]
        exact ⟨MagnetStatus.UNKNOWN, rfl⟩
      · rw [if_neg he]
        by_cases hct : containsSubstr r2 "STAT:" = true
        · rw [if_pos hct]
          apply pyCatch_covered
          intro e hE
          cases ho : MagnetStatus.ofString (pyStripWs (lastColonToken r2)) with
          | none =>
            rw [ho] at hE
            cases hE
            simp
          | some st =>
            rw [ho] at hE
            cases hE
        · rw [if_neg hct]
          exact ⟨MagnetStatus.UNKNOWN, rfl⟩
  · intro hct
    simp only [Mercury.read_magnet_status]
    by_cases he : r = ""
    · rw [if_pos he]
    · rw [if_neg he, if_neg (by simp [hct])]
  · intro hmem
    simp only [Mercury.read_magnet_status]
    by_cases he : r = ""
    · rw [if_pos he]
    · rw [if_neg he]
      by_cases hct : containsSubstr r "STAT:" = true
      · rw [if_pos hct]
        simp only [List.mem_cons, List.not_mem_nil, or_false, not_or] at hmem
        obtain ⟨h1, h2, h3, h4⟩ := hmem
        by_cases hu : pyStripWs (lastColonToken r) = "UNKNOWN"
        · simp [MagnetStatus.ofString, h1, h2, h3, h4, hu, pyCatch]
        · simp [MagnetStatus.ofString, h1, h2, h3, h4, hu, pyCatch]
      · rw [if_neg hct]
  · intro st he hct ho
    simp only [Mercury.read_magnet_status]
    rw [if_neg he, if_pos hct, ho]
    rfl

lemma hex_not_ws {c : Char} {a : Nat} (h : hexDigitVal c = some a) :
    isPyWs c = false := by
  by_contra hw
  rw [Bool.not_eq_false, isPyWs] at hw
  rcases Bool.or_eq_true_iff.mp hw with hw1 | hw0
  rcases Bool.or_eq_true_iff.mp hw1 with hw2 | hwc
  rcases Bool.or_eq_true_iff.mp hw2 with hw3 | hwr
  rcases Bool.or_eq_true_iff.mp hw3 with hw4 | hwn
  rcases Bool.or_eq_true_iff.mp hw4 with hwsp | hwt
  all_goals first
  | (rw [beq_iff_eq] at *
     subst_vars
     rw [show hexDigitVal ' ' = none from by decide] at h
     cases h)
  | skip
  · rw [beq_iff_eq] at hwt
    subst hwt
    rw [show hexDigitVal '\t' = none from by decide] at h
    cases h
  · rw [beq_iff_eq] at hwn
    subst hwn
    rw [show hexDigitVal '\n' = none from by decide] at h
    cases h
  · rw [beq_iff_eq] at hwr
    subst hwr
    rw [show hexDigitVal '\r' = none from by decide] at h
    cases h
  · rw [beq_iff_eq] at hwc
    subst hwc
    rw [show hexDigitVal '\x0b' = none from by decide] at h
    cases h
  · rw [beq_iff_eq] at hw0
    subst hw0
    rw [show hexDigitVal '\x0c' = none from by decide] at h
    cases h

lemma hex_ne_char {c : Char} {a : Nat} (h : hexDigitVal c = some a)
    (d : Char) (hd : hexDigitVal d = none) : c ≠ d := by
  intro he
  subst he
  rw [hd] at h
  cases h

lemma parsePyHex_two_hex (c1 c2 : Char) (a b : Nat)
    (h1 : hexDigitVal c1 = some a) (h2 : hexDigitVal c2 = some b) :
    parsePyHex (String.mk [c1, c2]) = some ((16 * a + b : Nat) : Int) := by
  have hw1 : isPyWs c1 = false := hex_not_ws h1
  have hw2 : isPyWs c2 = false := hex_not_ws h2
  have hx1 : isHexDigitB c1 = true := by
    rw [isHexDigitB, h1]
    rfl
  have hx2 : isHexDigitB c2 = true := by
    rw [isHexDigitB, h2]
    rfl
  have hp1 : (c1 == '+') = false := beq_eq_false_iff_ne.mpr (hex_ne_char h1 '+' (by decide))
  have hm1 : (c1 == '-') = false := beq_eq_false_iff_ne.mpr (hex_ne_char h1 '-' (by decide))
  have hxx : (c2 == 'x') = false := beq_eq_false_iff_ne.mpr (hex_ne_char h2 'x' (by decide))
  have hXX : (c2 == 'X') = false := beq_eq_false_iff_ne.mpr (hex_ne_char h2 'X' (by decide))
  have hstrip : pyStripWsList (String.mk [c1, c2]).toList = [c1, c2] := by
    show pyStripWsList [c1, c2] = [c1, c2]
    simp [pyStripWsList, List.dropWhile, hw1, hw2]
  simp only [parsePyHex, hstrip, List.headD_cons, List.tail_cons, hp1, hm1, hxx, hXX,
    Bool.or_self, Bool.or_false, Bool.and_false, Bool.false_or, if_false,
    Bool.false_eq_true, ite_false]
  simp only [List.takeWhile, List.dropWhile, hx1, hx2]
  simp only [List.isEmpty, Bool.not_false, Bool.and_self, if_true, Bool.not_true,
    Bool.true_and, Bool.and_true, ite_true]
  norm_num [digitsVal16, h1, h2]

lemma rate_eval (r : String) (v : Int) (hl : 10 ≤ pyLen r)
    (hp : parsePyHex (pySlice r 5 7) = some v) :
    ILM200.do_get_rate (some r) = Except.ok
      (if Int.land v 2 ≠ 0 then "FAST"
       else if Int.land v 4 ≠ 0 then "SLOW" else "UNKNOWN") ∧
    OIILM.get_rate (some r) = Except.ok
      (if Int.land v 2 ≠ 0 then "FAST"
       else if Int.land v 4 ≠ 0 then "SLOW" else "UNKNOWN") := by
  have he : ¬r = "" := by
    intro h
    subst h
    simp [pyLen] at hl
  constructor
  · simp only [ILM200.do_get_rate]
    rw [if_neg he, if_pos hl, hp]
    rfl
  · simp only [OIILM.get_rate]
    rw [if_neg he, if_pos hl, hp]
    rfl

/-- C4: the probe-rate decoder in both ILM 210 adapters.  For every
status string of the documented fixed format (length at least 10 with
two hex digits at offsets 5-6, which the last conjunct shows always
decode to a hex byte), the decoder returns "FAST" when bit 0x02 of the
decoded byte is set, otherwise "SLOW" when bit 0x04 is set, and
"UNKNOWN" when neither bit is set; for any string shorter than the
required length, or whose slice at offsets 5-6 fails to decode as a
base-16 integer (the embedded model of Python's `int(s, 16)`), it
returns "Unknown" without raising. -/
theorem c4_rate_decoder (r : String) (v : Int) (c1 c2 : Char) (a b : Nat) :
    (10 ≤ pyLen r → parsePyHex (pySlice r 5 7) = some v →
      ((Int.land v 2 ≠ 0 →
        ILM200.do_get_rate (some r) = Except.ok "FAST" ∧
        OIILM.get_rate (some r) = Except.ok "FAST") ∧
       (Int.land v 2 = 0 → Int.land v 4 ≠ 0 →
        ILM200.do_get_rate (some r) = Except.ok "SLOW" ∧
        OIILM.get_rate (some r) = Except.ok "SLOW") ∧
       (Int.land v 2 = 0 → Int.land v 4 = 0 →
        ILM200.do_get_rate (some r) = Except.ok "UNKNOWN" ∧
        OIILM.get_rate (some r) = Except.ok "UNKNOWN"))) ∧
    (pyLen r < 10 →
      ILM200.do_get_rate (some r) = Except.ok "Unknown" ∧
      OIILM.get_rate (some r) = Except.ok "Unknown") ∧
    (10 ≤ pyLen r → parsePyHex (pySlice r 5 7) = none →
      ILM200.do_get_rate (some r) = Except.ok "Unknown" ∧
      OIILM.get_rate (some r) = Except.ok "Unknown") ∧
    (hexDigitVal c1 = some a → hexDigitVal c2 = some b →
      parsePyHex (String.mk [c1, c2]) = some ((16 * a + b : Nat) : Int)) := by
  refine ⟨?_, ?_, ?_, fun h1 h2 => parsePyHex_two_hex c1 c2 a b h1 h2⟩
  · intro hl hp
    have h := rate_eval r v hl hp
    refine ⟨fun hf => ?_, fun hz hs => ?_, fun hz hz4 => ?_⟩
    · rw [if_pos hf] at h
      exact h
    · rw [if_neg (by simp [hz]), if_pos hs] at h
      exact h
    · rw [if_neg (by simp [hz]), if_neg (by simp [hz4])] at h
      exact h
  · intro hl
    constructor
    · simp only [ILM200.do_get_rate]
      by_cases he : r = ""
      · rw [if_pos he]
      · rw [if_neg he, if_neg (by omega)]
    · simp only [OIILM.get_rate]
      by_cases he : r = ""
      · rw [if_pos he]
      · rw [if_neg he, if_neg (by omega)]
  · intro hl hp
    have he : ¬r = "" := by
      intro h
      subst h
      simp [pyLen] at hl
    constructor
    · simp only [ILM200.do_get_rate]
      rw [if_neg he, if_pos hl, hp]
      rfl
    · simp only [OIILM.get_rate]
      rw [if_neg he, if_pos hl, hp]
      rfl

/-- C4 witness: the status string "AAAAA26AAA" has the two hex digits
"26" at offsets 5-6, whose value 0x26 has bit 0x02 set, so both
decoders answer "FAST". -/
theorem c4_rate_decoder_witness :
    ILM200.do_get_rate (some "AAAAA26AAA") = Except.ok "FAST" ∧
    OIILM.get_rate (some "AAAAA26AAA") = Except.ok "FAST" :=
  ((c4_rate_decoder "AAAAA26AAA" 38 '2' '6' 2 6).1 (by decide)
    (by decide)).1 (by decide)

/-- C10 witness: a recognised status code is decoded to its enum member,
and an unrecognised final token yields UNKNOWN. -/
theorem c10_read_magnet_status_total_witness :
    Mercury.read_magnet_status (some "STAT:DEV:GRPZ:PSU:ACTN:HOLD")
      = Except.ok MagnetStatus.HOLD ∧
    Mercury.read_magnet_status (some "STAT:DEV:GRPZ:PSU:ACTN:JUNK")
      = Except.ok MagnetStatus.UNKNOWN := by
  constructor
  · exact (c10_read_magnet_status_total (some "STAT:DEV:GRPZ:PSU:ACTN:HOLD")
      "STAT:DEV:GRPZ:PSU:ACTN:HOLD").2.2.2.2 MagnetStatus.HOLD
      (by decide) (by decide) (by decide)
  · exact (c10_read_magnet_status_total (some "STAT:DEV:GRPZ:PSU:ACTN:JUNK")
      "STAT:DEV:GRPZ:PSU:ACTN:JUNK").2.2.2.1 (by decide)

/-- C5 (code bug): the mock driver encodes readings as
`STAT:DEV:GRPZ:PSU:SIG:CURR:<value>:A`, with a colon before the unit.
`_extract_value` strips the prefix and removes the unit characters but
leaves that separating colon, so `float("0.0:")` raises `ValueError`
and the decode of every mock-encoded reading returns `None` instead of
the encoded value: with the mock current at 0.0 the round trip yields
`None`.  The second conjunct shows the decoder does round-trip the
colon-free encoding `<prefix><numeric><unit>`, decoding
`"STAT:DEV:GRPZ:PSU:SIG:CURR:0.0A"` to 0.0 — the mock's extra `:`
separator is the slip. -/
theorem c5_mock_roundtrip_broken :
    Mercury.read_current (some (Mercury.mockCurrResponse "0.0")) = Except.ok none ∧
    Mercury.extract_value "STAT:DEV:GRPZ:PSU:SIG:CURR:0.0A" "DEV:GRPZ:PSU:SIG:CURR" "A"
      = Except.ok (some 0) := by
  constructor
  · have hne : ¬Mercury.mockCurrResponse "0.0" = "" := by decide
    have hsw2 : pyStartsWith (Mercury.mockCurrResponse "0.0")
        ("STAT:" ++ "DEV:GRPZ:PSU:SIG:CURR" ++ ":") = true := by decide
    have hclean2 : Mercury.extractCleaned (Mercury.mockCurrResponse "0.0")
        "DEV:GRPZ:PSU:SIG:CURR" "A" = "0.0:" := by decide
    have hpf2 : parsePyFloat "0.0:" = none := by
      unfold parsePyFloat
      rw [show parsePyFloatRep "0.0:" = none from by decide]
      rfl
    simp only [Mercury.read_current]
    rw [if_neg hne]
    simp only [Mercury.extract_value]
    rw [if_pos hsw2, hclean2, hpf2]
    rfl
  · have hrep : parsePyFloatRep "0.0" = some ⟨false, 0, 1, 0⟩ := by decide
    have hval : FloatRep.val ⟨false, 0, 1, 0⟩ = 0 := by
      norm_num [FloatRep.val, qpow10]
    have hclean :
        Mercury.extractCleaned "STAT:DEV:GRPZ:PSU:SIG:CURR:0.0A"
          "DEV:GRPZ:PSU:SIG:CURR" "A" = "0.0" := by decide
    have hsw :
        pyStartsWith "STAT:DEV:GRPZ:PSU:SIG:CURR:0.0A"
          ("STAT:" ++ "DEV:GRPZ:PSU:SIG:CURR" ++ ":") = true := by decide
    have hpf : parsePyFloat "0.0" = some (FloatRep.val ⟨false, 0, 1, 0⟩) := by
      unfold parsePyFloat
      rw [hrep]
      rfl
    simp only [Mercury.extract_value]
    rw [if_pos hsw, hclean, hpf, hval]
    rfl
